import Mathlib

/-!
Verification of the `gas-client` shim (src/src/index.ts): a shallow embedding of
the allow-list check, the dev-bridge correlation table and message handler, the
Proxy `get` trap, and the constructor's mode selection, together with theorems
settling the specified behavioural claims.
-/

namespace GasClient

/-- JavaScript runtime values, as far as the bridge inspects them:
the handler and the allow-list compare payload fields with `===`. -/
inductive JSValue where
  | undef
  | null
  | bool (b : Bool)
  | num (n : Int)
  | str (s : String)
deriving DecidableEq

/-- The `allowedDevelopmentDomains` configuration value reaching
`checkAllowList`: a string, a predicate function (returning an arbitrary
JS value, compared strictly with `true`), or any other value, including
`undefined` when the config or the field is absent. -/
inductive AllowedDevelopmentDomains where
  | str (s : String)
  | fn (f : String → JSValue)
  | other (v : JSValue)

/-- Model of JavaScript `s.split(' ')` on a list of characters: splits at
every single space, keeping empty fragments (as `'a  b'.split(' ')` yields
`['a','','b']` and `''.split(' ')` yields `['']`). -/
def splitSpaceAux : List Char → List Char → List String
  | [], acc => [String.mk acc.reverse]
  | c :: cs, acc =>
      if c = ' ' then String.mk acc.reverse :: splitSpaceAux cs []
      else splitSpaceAux cs (c :: acc)

/-- Model of JavaScript `s.split(' ')`. -/
def splitSpace (s : String) : List String :=
  splitSpaceAux s.toList []

/-- Embedding of `checkAllowList` from src/src/index.ts:
string config: `allowedDevelopmentDomains.split(' ').some(p => p === origin)`;
function config: `allowedDevelopmentDomains(origin) === true`;
anything else: `false`. -/
def checkAllowList : AllowedDevelopmentDomains → String → Bool
  | .str allowedDevelopmentDomains, origin =>
      (splitSpace allowedDevelopmentDomains).any
        (fun permittedOrigin => permittedOrigin == origin)
  | .fn f, origin => decide (f origin = JSValue.bool true)
  | .other _, _ => false

/-- State of one pending call's Promise. A Promise settles at most once:
`resolve`/`reject` on an already settled Promise are no-ops. -/
inductive PromiseState where
  | pending
  | resolved (v : JSValue)
  | rejected (v : JSValue)
deriving DecidableEq

/-- Calling the Promise executor's `resolve` callback with `v`. -/
def promiseResolve (p : PromiseState) (v : JSValue) : PromiseState :=
  match p with
  | .pending => .resolved v
  | s => s

/-- Calling the Promise executor's `reject` callback with `v`. -/
def promiseReject (p : PromiseState) (v : JSValue) : PromiseState :=
  match p with
  | .pending => .rejected v
  | s => s

/-- The correlation table `window.gasStore`, from request id to the pending
Promise whose `resolve`/`reject` pair is stored under that id. -/
abbrev GasStore := List (String × PromiseState)

/-- Apply a settle step to the Promise stored under `id` (the effect of
invoking the stored callback looked up at that key). -/
def storeSettle (store : GasStore) (id : String) (f : PromiseState → PromiseState) :
    GasStore :=
  store.map (fun e => if e.1 = id then (e.1, f e.2) else e)

/-- The fields of `event.data` the handler reads: `type`, `id`, `status`,
`response` (each possibly `undefined` when absent). The id is the string key
used to index `window.gasStore`. -/
structure EventData where
  type : JSValue
  id : String
  status : JSValue
  response : JSValue
deriving DecidableEq

/-- A `message` event: the sender's origin and the payload. -/
structure MessageEvent where
  origin : String
  data : EventData
deriving DecidableEq

/-- One invocation of a stored callback, recorded in order. -/
inductive CallbackCall where
  | resolveCall (id : String) (v : JSValue)
  | rejectCall (id : String) (v : JSValue)
deriving DecidableEq

/-- Whether the handler returned normally or threw. Destructuring
`window.gasStore[id]` when `id` is not a key destructures `undefined`,
which throws a TypeError. -/
inductive HandlerOutcome where
  | normal
  | threwTypeError
deriving DecidableEq

/-- Result of one run of the message handler: how it terminated, the
correlation table afterwards, and the callback invocations it performed. -/
structure HandlerRun where
  outcome : HandlerOutcome
  store : GasStore
  calls : List CallbackCall
deriving DecidableEq

/-- Embedding of `receiveMessageHandler` from src/src/index.ts:
check the allow list and return if it fails; return unless
`event.data.type === 'RESPONSE'`; destructure `window.gasStore[id]`
(throwing if the id is not a key); then `if (status === 'ERROR') reject(response);`
followed unconditionally by `resolve(response)`. -/
def receiveMessageHandler (allowedDevelopmentDomains : AllowedDevelopmentDomains)
    (store : GasStore) (event : MessageEvent) : HandlerRun :=
  if checkAllowList allowedDevelopmentDomains event.origin = false then
    ⟨.normal, store, []⟩
  else if event.data.type ≠ JSValue.str "RESPONSE" then ⟨.normal, store, []⟩
  else
    match store.lookup event.data.id with
    | none => ⟨.threwTypeError, store, []⟩
    | some _ =>
        if event.data.status = JSValue.str "ERROR" then
          ⟨.normal,
           storeSettle
             (storeSettle store event.data.id
               (fun p => promiseReject p event.data.response))
             event.data.id (fun p => promiseResolve p event.data.response),
           [.rejectCall event.data.id event.data.response,
            .resolveCall event.data.id event.data.response]⟩
        else
          ⟨.normal,
           storeSettle store event.data.id
             (fun p => promiseResolve p event.data.response),
           [.resolveCall event.data.id event.data.response]⟩

/-- A message posted with `window.parent.postMessage(body, targetOrigin)`. -/
structure PostedMessage where
  type : String
  id : String
  functionName : String
  args : List JSValue
  targetOrigin : String
deriving DecidableEq

/-- The closure returned by the Proxy `get` trap: it captures the id
generated at property-access time, the accessed property name, and (via the
id) the Promise created at access time. -/
structure BridgeFunction where
  id : String
  functionName : String
deriving DecidableEq

/-- Embedding of the Proxy `handler.get` trap from src/src/index.ts: at
property access a fresh `id = uuidv4()` is generated (passed here as a
parameter, as uuid generation is the only nondeterminism), a new pending
Promise is created and its `resolve`/`reject` stored under
`window.gasStore[id]`, and a closure capturing `id`, `functionName` and the
Promise is returned. -/
def handlerGet (store : GasStore) (freshId : String) (functionName : String) :
    GasStore × BridgeFunction :=
  ((freshId, PromiseState.pending) :: store, ⟨freshId, functionName⟩)

/-- Embedding of the closure returned by `handler.get`: invoking it posts
`{type: 'REQUEST', id, functionName, args: [...args]}` to `window.parent`
with target origin `window.location.origin`, and returns the Promise created
at access time (identified by its id in the store). -/
def bridgeInvoke (f : BridgeFunction) (locationOrigin : String)
    (args : List JSValue) : PostedMessage × String :=
  ({ type := "REQUEST", id := f.id, functionName := f.functionName,
     args := args, targetOrigin := locationOrigin }, f.id)

/-- Invoking one returned closure once per argument list in `argss`:
the messages posted and the Promises returned, in order. -/
def invokeAll (f : BridgeFunction) (locationOrigin : String)
    (argss : List (List JSValue)) : List PostedMessage × List String :=
  (argss.map (fun args => (bridgeInvoke f locationOrigin args).1),
   argss.map (fun args => (bridgeInvoke f locationOrigin args).2))

/-- The full dev-bridge call `serverFunctions.name(args...)`: a property
access (`handler.get`) immediately followed by one invocation of the returned
closure. Yields the table after registration, the list of messages posted by
the invocation, and the Promise returned to the caller. -/
def serverFunctionsCall (store : GasStore) (freshId : String)
    (functionName : String) (locationOrigin : String) (args : List JSValue) :
    GasStore × List PostedMessage × String :=
  let g := handlerGet store freshId functionName
  let r := bridgeInvoke g.2 locationOrigin args
  (g.1, [r.1], r.2)

/-- One production-mode call delegated to the host:
`google.script.run.withSuccessHandler(resolve).withFailureHandler(reject)[functionName](...args)`. -/
structure HostCall where
  functionName : String
  args : List JSValue

/-- A production-mode wrapper: the closure stored under a function name,
which turns an argument list into the delegated host call. -/
structure ProdFunction where
  call : List JSValue → HostCall

/-- The reserved names skipped by the constructor. -/
def ignoredFunctionNames : List String :=
  ["withFailureHandler", "withLogger", "withSuccessHandler", "withUserObject"]

/-- One step of the constructor's reduce: reserved names are skipped
(`ignoredFunctionNames.includes(functionName) ? acc : {...acc, [functionName]: ...}`),
every other name is bound to a Promise-returning wrapper delegating to the
host. -/
def addServerFunction (acc : List (String × ProdFunction))
    (functionName : String) : List (String × ProdFunction) :=
  if ignoredFunctionNames.contains functionName then acc
  else
    acc ++ [(functionName,
      { call := fun args => { functionName := functionName, args := args } })]

/-- Embedding of the constructor's reduce over `Object.keys(google.script.run)`
starting from the empty object. -/
def buildServerFunctions (names : List String) : List (String × ProdFunction) :=
  names.foldl addServerFunction []

/-- How the attempt to enumerate `Object.keys(google.script.run)` goes:
either the host object is available with these keys, or the access throws a
value whose `toString()` is the given string. -/
inductive GoogleEnv where
  | available (names : List String)
  | throwsOnAccess (errString : String)

/-- What construction ends as: production mode with the built mapping;
dev-bridge mode (with the freshly initialised empty `window.gasStore`);
normal completion with `_serverFunctions` left as `{}` when the catch block
swallows the error; or an error propagating out of the constructor. -/
inductive ConstructResult where
  | production (serverFunctions : List (String × ProdFunction))
  | devBridge (gasStore : GasStore)
  | emptyFallthrough
  | threw (errString : String)

/-- Embedding of `Server`'s constructor from src/src/index.ts: build the
production mapping from the host's keys; on a throw, set up the dev bridge
only when `err.toString() === 'ReferenceError: google is not defined'` and
`process?.env.NODE_ENV === 'development'`; the catch block has no rethrow,
so in every other case the constructor completes with the initial `{}`. -/
def serverConstructor (env : GoogleEnv) (nodeEnv : Option String) :
    ConstructResult :=
  match env with
  | .available names => .production (buildServerFunctions names)
  | .throwsOnAccess errString =>
      if errString = "ReferenceError: google is not defined" ∧
          nodeEnv = some "development" then
        .devBridge []
      else
        .emptyFallthrough

/-! ### Helper lemmas about the correlation table -/

theorem storeSettle_keys (store : GasStore) (id : String)
    (f : PromiseState → PromiseState) :
    (storeSettle store id f).map Prod.fst = store.map Prod.fst := by
  simp only [storeSettle, List.map_map]
  congr 1
  funext e
  by_cases hk : e.1 = id <;> simp [hk]

theorem storeSettle_lookup_self (store : GasStore) (id : String)
    (f : PromiseState → PromiseState) :
    (storeSettle store id f).lookup id = (store.lookup id).map f := by
  induction store with
  | nil => rfl
  | cons e t ih =>
      obtain ⟨k, p⟩ := e
      by_cases hk : k = id
      · subst hk
        simp [storeSettle, List.lookup_cons]
      · have hne : (id == k) = false := beq_eq_false_iff_ne.mpr (Ne.symm hk)
        simpa [storeSettle, List.lookup_cons, hk, hne] using ih

theorem storeSettle_lookup_ne (store : GasStore) (id j : String)
    (f : PromiseState → PromiseState) (h : j ≠ id) :
    (storeSettle store id f).lookup j = store.lookup j := by
  induction store with
  | nil => rfl
  | cons e t ih =>
      obtain ⟨k, p⟩ := e
      by_cases hk : k = id
      · subst hk
        have hne : (j == k) = false := beq_eq_false_iff_ne.mpr h
        simpa [storeSettle, List.lookup_cons, hne] using ih
      · by_cases hj : j = k
        · subst hj
          simp [storeSettle, List.lookup_cons, hk]
        · have hne : (j == k) = false := beq_eq_false_iff_ne.mpr hj
          simpa [storeSettle, List.lookup_cons, hk, hne] using ih

theorem storeSettle_lookup_isSome (store : GasStore) (id : String)
    (f : PromiseState → PromiseState) (j : String) :
    ((storeSettle store id f).lookup j).isSome = (store.lookup j).isSome := by
  by_cases h : j = id
  · subst h
    rw [storeSettle_lookup_self]
    cases store.lookup j <;> rfl
  · rw [storeSettle_lookup_ne _ _ _ _ h]

/-! ### Generic facts about one handler run -/

theorem receiveMessageHandler_store_keys (cfg : AllowedDevelopmentDomains)
    (store : GasStore) (event : MessageEvent) :
    (receiveMessageHandler cfg store event).store.map Prod.fst =
      store.map Prod.fst := by
  unfold receiveMessageHandler
  split
  · rfl
  · split
    · rfl
    · split
      · rfl
      · split <;> simp [storeSettle_keys]

theorem receiveMessageHandler_store_lookup_ne (cfg : AllowedDevelopmentDomains)
    (store : GasStore) (event : MessageEvent) (j : String)
    (hj : event.data.id ≠ j) :
    (receiveMessageHandler cfg store event).store.lookup j = store.lookup j := by
  unfold receiveMessageHandler
  split
  · rfl
  · split
    · rfl
    · split
      · rfl
      · split <;> simp [storeSettle_lookup_ne _ _ _ _ (Ne.symm hj)]

theorem receiveMessageHandler_store_lookup_isSome (cfg : AllowedDevelopmentDomains)
    (store : GasStore) (event : MessageEvent) (j : String) :
    ((receiveMessageHandler cfg store event).store.lookup j).isSome =
      (store.lookup j).isSome := by
  unfold receiveMessageHandler
  split
  · rfl
  · split
    · rfl
    · split
      · rfl
      · split <;> simp [storeSettle_lookup_isSome]

/-! ### Claims -/

/-- Claim C3: `checkAllowList` returns true for a string configuration iff
the origin exactly equals one of its space-separated tokens; for a function
configuration iff the function applied to the origin returns the strict
boolean `true`; and false for every origin under any other configuration
(the bridge fails closed). -/
theorem checkAllowList_spec :
    (∀ s origin, checkAllowList (.str s) origin = true ↔ origin ∈ splitSpace s)
    ∧ (∀ f origin,
        checkAllowList (.fn f) origin = true ↔ f origin = JSValue.bool true)
    ∧ (∀ v origin, checkAllowList (.other v) origin = false) := by
  refine ⟨fun s origin => ?_, fun f origin => ?_, fun v origin => rfl⟩
  · simp only [checkAllowList, List.any_eq_true, beq_iff_eq]
    exact ⟨fun ⟨x, hx, he⟩ => he ▸ hx, fun h => ⟨origin, h, rfl⟩⟩
  · simp [checkAllowList]

/-- Closed instance of `checkAllowList_spec`: a listed origin is accepted,
and with the configuration absent every origin is rejected. -/
theorem checkAllowList_spec_witness :
    checkAllowList (.str "https://a.com https://b.com") "https://a.com" = true
    ∧ checkAllowList (.other JSValue.undef) "https://a.com" = false :=
  ⟨(checkAllowList_spec.1 "https://a.com https://b.com" "https://a.com").mpr
      (by decide),
   checkAllowList_spec.2.2 JSValue.undef "https://a.com"⟩

/-- Claim C6: a message failing the allow-list check, or whose payload type
is not 'RESPONSE', is silently dropped: the handler returns normally, leaves
the correlation table unchanged, and invokes no stored callback, so every
pending Promise stays pending. -/
theorem receiveMessageHandler_drops (cfg : AllowedDevelopmentDomains)
    (store : GasStore) (event : MessageEvent)
    (h : checkAllowList cfg event.origin = false
      ∨ event.data.type ≠ JSValue.str "RESPONSE") :
    receiveMessageHandler cfg store event = ⟨.normal, store, []⟩ := by
  rcases h with h | h
  · simp [receiveMessageHandler, h]
  · by_cases ha : checkAllowList cfg event.origin = false
    · simp [receiveMessageHandler, ha]
    · simp [receiveMessageHandler, ha, h]

/-- Closed instance of `receiveMessageHandler_drops`: a disallowed-origin
RESPONSE for a pending id leaves the table untouched and calls nothing. -/
theorem receiveMessageHandler_drops_witness :
    receiveMessageHandler (.other JSValue.undef) [("a", PromiseState.pending)]
        ⟨"https://a.com",
         ⟨JSValue.str "RESPONSE", "a", JSValue.str "OK", JSValue.num 1⟩⟩ =
      ⟨.normal, [("a", PromiseState.pending)], []⟩ :=
  receiveMessageHandler_drops _ _ _ (Or.inl rfl)

/-- Claim C1 counterexample: an allowed-origin RESPONSE whose id is not a key
of the correlation table makes the handler throw (destructuring the
`undefined` lookup result throws a TypeError), refuting "the message handler
does not throw". -/
theorem receiveMessageHandler_unknownId_throws :
    (receiveMessageHandler (.fn fun _ => JSValue.bool true)
        [("a", PromiseState.pending)]
        ⟨"https://x.test",
         ⟨JSValue.str "RESPONSE", "b", JSValue.str "OK", JSValue.num 1⟩⟩).outcome
      ≠ HandlerOutcome.normal := by decide

/-- Claim C1 (amended): for an allowed-origin RESPONSE whose id is not a key
of the correlation table, the handler throws a TypeError; it invokes no
stored callback and leaves the table unchanged, so no pending Promise
registered under a different id is resolved or rejected. -/
theorem receiveMessageHandler_unknownId (cfg : AllowedDevelopmentDomains)
    (store : GasStore) (event : MessageEvent)
    (h1 : checkAllowList cfg event.origin = true)
    (h2 : event.data.type = JSValue.str "RESPONSE")
    (h3 : store.lookup event.data.id = none) :
    receiveMessageHandler cfg store event = ⟨.threwTypeError, store, []⟩ := by
  simp [receiveMessageHandler, h1, h2, h3]

/-- Closed instance of `receiveMessageHandler_unknownId`. -/
theorem receiveMessageHandler_unknownId_witness :
    receiveMessageHandler (.fn fun _ => JSValue.bool true)
        [("a", PromiseState.pending)]
        ⟨"https://x.test",
         ⟨JSValue.str "RESPONSE", "b", JSValue.str "OK", JSValue.num 1⟩⟩ =
      ⟨.threwTypeError, [("a", PromiseState.pending)], []⟩ :=
  receiveMessageHandler_unknownId _ _ _ rfl rfl rfl

/-- Claim C4: an allowed-origin RESPONSE for a pending id settles that id's
Promise: with status 'ERROR' it ends rejected with exactly the response
payload (`reject` runs first; the unconditional `resolve` afterwards is a
no-op on a settled Promise), and with any other status — in particular
'OK' — it ends resolved with exactly the response payload. -/
theorem receiveMessageHandler_settles (cfg : AllowedDevelopmentDomains)
    (store : GasStore) (event : MessageEvent)
    (h1 : checkAllowList cfg event.origin = true)
    (h2 : event.data.type = JSValue.str "RESPONSE")
    (h3 : store.lookup event.data.id = some PromiseState.pending) :
    (receiveMessageHandler cfg store event).outcome = HandlerOutcome.normal
    ∧ (receiveMessageHandler cfg store event).store.lookup event.data.id =
        some (if event.data.status = JSValue.str "ERROR"
              then PromiseState.rejected event.data.response
              else PromiseState.resolved event.data.response) := by
  by_cases hs : event.data.status = JSValue.str "ERROR"
  · refine ⟨by simp [receiveMessageHandler, h1, h2, h3, hs], ?_⟩
    simp [receiveMessageHandler, h1, h2, h3, hs, storeSettle_lookup_self,
      promiseReject, promiseResolve]
  · refine ⟨by simp [receiveMessageHandler, h1, h2, h3, hs], ?_⟩
    simp [receiveMessageHandler, h1, h2, h3, hs, storeSettle_lookup_self,
      promiseResolve]

/-- Closed instance of `receiveMessageHandler_settles`: an OK response with
payload 42 leaves the Promise resolved with 42. -/
theorem receiveMessageHandler_settles_witness :
    (receiveMessageHandler (.fn fun _ => JSValue.bool true)
        [("a", PromiseState.pending)]
        ⟨"https://x.test",
         ⟨JSValue.str "RESPONSE", "a", JSValue.str "OK", JSValue.num 42⟩⟩).store.lookup "a"
      = some (PromiseState.resolved (JSValue.num 42)) :=
  ((receiveMessageHandler_settles (.fn fun _ => JSValue.bool true)
      [("a", PromiseState.pending)]
      ⟨"https://x.test",
       ⟨JSValue.str "RESPONSE", "a", JSValue.str "OK", JSValue.num 42⟩⟩
      rfl rfl rfl).2).trans (by decide)

/-- Claim C5: for an accepted RESPONSE whose id is registered, status 'ERROR'
makes the handler invoke the stored reject callback with the payload and then
the stored resolve callback with the same payload (both are called on the
error path); any other status invokes the resolve callback alone. -/
theorem receiveMessageHandler_calls (cfg : AllowedDevelopmentDomains)
    (store : GasStore) (event : MessageEvent)
    (h1 : checkAllowList cfg event.origin = true)
    (h2 : event.data.type = JSValue.str "RESPONSE")
    (h3 : (store.lookup event.data.id).isSome = true) :
    (receiveMessageHandler cfg store event).calls =
      if event.data.status = JSValue.str "ERROR" then
        [CallbackCall.rejectCall event.data.id event.data.response,
         CallbackCall.resolveCall event.data.id event.data.response]
      else
        [CallbackCall.resolveCall event.data.id event.data.response] := by
  obtain ⟨entry, he⟩ := Option.isSome_iff_exists.mp h3
  by_cases hs : event.data.status = JSValue.str "ERROR" <;>
    simp [receiveMessageHandler, h1, h2, he, hs]

/-- Closed instance of `receiveMessageHandler_calls`: an ERROR response makes
the handler call reject and then resolve, both with the payload. -/
theorem receiveMessageHandler_calls_witness :
    (receiveMessageHandler (.fn fun _ => JSValue.bool true)
        [("a", PromiseState.pending)]
        ⟨"https://x.test",
         ⟨JSValue.str "RESPONSE", "a", JSValue.str "ERROR",
          JSValue.str "boom"⟩⟩).calls =
      [CallbackCall.rejectCall "a" (JSValue.str "boom"),
       CallbackCall.resolveCall "a" (JSValue.str "boom")] :=
  (receiveMessageHandler_calls (.fn fun _ => JSValue.bool true)
      [("a", PromiseState.pending)]
      ⟨"https://x.test",
       ⟨JSValue.str "RESPONSE", "a", JSValue.str "ERROR", JSValue.str "boom"⟩⟩
      rfl rfl (by decide)).trans (by decide)

/-- Claim C2 counterexample: when enumeration throws a condition other than
the "google is not defined" reference error, the constructor completes
normally with the empty mapping — nothing propagates out. -/
theorem serverConstructor_swallows_counterexample :
    serverConstructor (.throwsOnAccess "Error: boom") none =
        ConstructResult.emptyFallthrough
    ∧ serverConstructor (.throwsOnAccess "Error: boom") none ≠
        ConstructResult.threw "Error: boom" := by
  constructor
  · rfl
  · intro h
    rw [show serverConstructor (.throwsOnAccess "Error: boom") none =
        ConstructResult.emptyFallthrough from rfl] at h
    exact ConstructResult.noConfusion h

/-- Claim C2 (amended): if enumerating the host RPC object's function names
throws any condition other than the "google is not defined" reference error
with NODE_ENV set to 'development', the catch block (which has no rethrow)
swallows it: construction completes normally and `_serverFunctions` is left
as the initial empty mapping; nothing propagates out of the constructor. -/
theorem serverConstructor_swallows (errString : String) (nodeEnv : Option String)
    (h : ¬(errString = "ReferenceError: google is not defined"
        ∧ nodeEnv = some "development")) :
    serverConstructor (.throwsOnAccess errString) nodeEnv =
      ConstructResult.emptyFallthrough := by
  simp only [serverConstructor, if_neg h]

/-- Closed instance of `serverConstructor_swallows`. -/
theorem serverConstructor_swallows_witness :
    serverConstructor (.throwsOnAccess "TypeError: x is not a function")
        (some "production") = ConstructResult.emptyFallthrough :=
  serverConstructor_swallows "TypeError: x is not a function"
    (some "production") (by decide)

/-! ### Facts about the production mapping -/

theorem lookup_isSome_iff {β : Type} (l : List (String × β)) (a : String) :
    (l.lookup a).isSome = true ↔ a ∈ l.map Prod.fst := by
  induction l with
  | nil => simp
  | cons e t ih =>
      by_cases he : a = e.1
      · simp [List.lookup_cons, he]
      · have hne : (a == e.1) = false := beq_eq_false_iff_ne.mpr he
        simp [List.lookup_cons, hne, he, ih]

theorem buildServerFunctions_foldl_fst (names : List String)
    (acc : List (String × ProdFunction)) :
    (names.foldl addServerFunction acc).map Prod.fst =
      acc.map Prod.fst
        ++ names.filter (fun n => !(ignoredFunctionNames.contains n)) := by
  induction names generalizing acc with
  | nil => simp
  | cons n t ih =>
      rw [List.foldl_cons, ih]
      by_cases hn : n ∈ ignoredFunctionNames <;>
        simp [addServerFunction, hn, List.filter_cons]

/-- Claim C8: a name appears as a key of the production server-functions
mapping iff it is one of the host RPC object's function names and is not one
of the four reserved names; in particular no reserved name ever appears. -/
theorem buildServerFunctions_keys (names : List String) (name : String) :
    ((buildServerFunctions names).lookup name).isSome = true ↔
      (name ∈ names ∧ ¬ name ∈ ignoredFunctionNames) := by
  rw [lookup_isSome_iff, buildServerFunctions, buildServerFunctions_foldl_fst]
  simp [List.mem_filter]

/-- Closed instance of `buildServerFunctions_keys`: a host function name
appears in the mapping; the reserved name `withLogger` does not. -/
theorem buildServerFunctions_keys_witness :
    ((buildServerFunctions ["doSomething", "withLogger"]).lookup
        "doSomething").isSome = true
    ∧ ((buildServerFunctions ["doSomething", "withLogger"]).lookup
        "withLogger").isSome = false :=
  ⟨(buildServerFunctions_keys ["doSomething", "withLogger"] "doSomething").mpr
      (by decide),
   by decide⟩

/-- Claim C7: a dev-bridge call `serverFunctions.name(args...)` posts exactly
one message `{type: 'REQUEST', id, functionName, args}` to the parent frame
with target origin equal to the page's own origin, and returns the Promise
registered under the generated id, which is pending after the call and stays
pending under every handler run that is not an accepted RESPONSE carrying
that id. -/
theorem serverFunctionsCall_spec (store : GasStore)
    (freshId functionName locationOrigin : String) (args : List JSValue) :
    (serverFunctionsCall store freshId functionName locationOrigin args).2.1 =
      [{ type := "REQUEST", id := freshId, functionName := functionName,
         args := args, targetOrigin := locationOrigin }]
    ∧ (serverFunctionsCall store freshId functionName locationOrigin args).2.2 =
        freshId
    ∧ (serverFunctionsCall store freshId functionName
        locationOrigin args).1.lookup freshId = some PromiseState.pending
    ∧ ∀ (cfg : AllowedDevelopmentDomains) (event : MessageEvent),
        ¬(checkAllowList cfg event.origin = true
          ∧ event.data.type = JSValue.str "RESPONSE"
          ∧ event.data.id = freshId) →
        (receiveMessageHandler cfg
            (serverFunctionsCall store freshId functionName locationOrigin args).1
            event).store.lookup freshId = some PromiseState.pending := by
  have hpend : (serverFunctionsCall store freshId functionName
      locationOrigin args).1.lookup freshId = some PromiseState.pending := by
    simp [serverFunctionsCall, handlerGet, List.lookup_cons]
  refine ⟨rfl, rfl, hpend, ?_⟩
  intro cfg event h
  by_cases ha : checkAllowList cfg event.origin = false
  · rw [receiveMessageHandler, if_pos ha]
    exact hpend
  · have ha' : checkAllowList cfg event.origin = true := by
      cases hc : checkAllowList cfg event.origin
      · exact absurd hc ha
      · rfl
    by_cases hb : event.data.type = JSValue.str "RESPONSE"
    · have hid : event.data.id ≠ freshId := fun he => h ⟨ha', hb, he⟩
      rw [receiveMessageHandler_store_lookup_ne cfg _ event freshId hid]
      exact hpend
    · rw [receiveMessageHandler, if_neg (by simp [ha']), if_pos hb]
      exact hpend

/-- Closed instance of `serverFunctionsCall_spec`: after a call, a RESPONSE
from a disallowed origin leaves the returned Promise pending. -/
theorem serverFunctionsCall_spec_witness :
    (receiveMessageHandler (.other JSValue.undef)
        (serverFunctionsCall [] "id1" "myFunc" "https://o"
          [JSValue.num 1, JSValue.num 2]).1
        ⟨"https://evil.test",
         ⟨JSValue.str "RESPONSE", "id1", JSValue.str "OK",
          JSValue.num 3⟩⟩).store.lookup "id1" = some PromiseState.pending :=
  (serverFunctionsCall_spec [] "id1" "myFunc" "https://o"
      [JSValue.num 1, JSValue.num 2]).2.2.2 (.other JSValue.undef)
    ⟨"https://evil.test",
     ⟨JSValue.str "RESPONSE", "id1", JSValue.str "OK", JSValue.num 3⟩⟩
    (by decide)

/-- Claim C9: no operation removes correlation-table entries: a handler run
preserves the key list exactly (in particular a settled entry remains under
its id), a property access prepends the fresh key to the key list, and any
registered id is still registered after any handler run — the key set only
grows over the lifetime of the page. -/
theorem gasStore_monotone (cfg : AllowedDevelopmentDomains) (store : GasStore)
    (event : MessageEvent) (freshId functionName : String) :
    (receiveMessageHandler cfg store event).store.map Prod.fst =
        store.map Prod.fst
    ∧ (handlerGet store freshId functionName).1.map Prod.fst =
        freshId :: store.map Prod.fst
    ∧ ∀ id, (store.lookup id).isSome = true →
        ((receiveMessageHandler cfg store event).store.lookup id).isSome =
          true := by
  refine ⟨receiveMessageHandler_store_keys cfg store event, rfl, fun id h => ?_⟩
  rw [receiveMessageHandler_store_lookup_isSome]
  exact h

/-- Closed instance of `gasStore_monotone`: the id settled by an accepted
ERROR response is still a key of the table afterwards. -/
theorem gasStore_monotone_witness :
    ((receiveMessageHandler (.fn fun _ => JSValue.bool true)
        [("a", PromiseState.pending)]
        ⟨"https://x.test",
         ⟨JSValue.str "RESPONSE", "a", JSValue.str "ERROR",
          JSValue.str "boom"⟩⟩).store.lookup "a").isSome = true :=
  (gasStore_monotone (.fn fun _ => JSValue.bool true)
      [("a", PromiseState.pending)]
      ⟨"https://x.test",
       ⟨JSValue.str "RESPONSE", "a", JSValue.str "ERROR", JSValue.str "boom"⟩⟩
      "b" "f").2.2 "a" (by decide)

/-- Claim C10: the correlation id and the Promise are created at
property-access time: the `get` trap alone registers the pending entry under
the fresh id (even if the returned closure is never invoked) and returns a
closure capturing that id and the accessed name; invoking that one closure N
times posts N REQUEST messages that all carry the same id, and every
invocation returns the same Promise — the one registered at access time. -/
theorem handlerGet_access_time (store : GasStore)
    (freshId functionName locationOrigin : String)
    (argss : List (List JSValue)) :
    (handlerGet store freshId functionName).1.lookup freshId =
        some PromiseState.pending
    ∧ (handlerGet store freshId functionName).2 =
        BridgeFunction.mk freshId functionName
    ∧ (invokeAll (handlerGet store freshId functionName).2 locationOrigin
        argss).1.length = argss.length
    ∧ (∀ m ∈ (invokeAll (handlerGet store freshId functionName).2
          locationOrigin argss).1,
        m.type = "REQUEST" ∧ m.id = freshId ∧ m.functionName = functionName
          ∧ m.targetOrigin = locationOrigin)
    ∧ ∀ p ∈ (invokeAll (handlerGet store freshId functionName).2
          locationOrigin argss).2, p = freshId := by
  refine ⟨by simp [handlerGet, List.lookup_cons], rfl,
    by simp [invokeAll], ?_, ?_⟩
  · intro m hm
    simp only [invokeAll, handlerGet, bridgeInvoke, List.mem_map] at hm
    obtain ⟨args, _, rfl⟩ := hm
    exact ⟨rfl, rfl, rfl, rfl⟩
  · intro p hp
    simp only [invokeAll, handlerGet, bridgeInvoke, List.mem_map] at hp
    obtain ⟨args, _, rfl⟩ := hp
    rfl

/-- Closed instance of `handlerGet_access_time`: the entry is registered by
the property access alone, and two invocations post two messages. -/
theorem handlerGet_access_time_witness :
    (handlerGet [] "id1" "myFunc").1.lookup "id1" = some PromiseState.pending
    ∧ (invokeAll (handlerGet [] "id1" "myFunc").2 "https://o"
        [[JSValue.num 1], [JSValue.num 2]]).1.length = 2 :=
  ⟨(handlerGet_access_time [] "id1" "myFunc" "https://o"
      [[JSValue.num 1], [JSValue.num 2]]).1,
   (handlerGet_access_time [] "id1" "myFunc" "https://o"
      [[JSValue.num 1], [JSValue.num 2]]).2.2.1⟩

end GasClient
